import Mathlib

/-!
Shallow embedding of the link-shortener chat bot (`src/bot.py`) and proofs of
the specification's claims about it.

The embedding follows the source file closely:
* `generate_id` models `generate_id(length=12)` (bot.py lines 76-78), with the
  calls to `secrets.choice` replaced by an explicit oracle `r : Nat → Fin 62`
  giving the index chosen at each position.
* the five SQLite tables become five lists of row structures inside `DB`;
  `INSERT` into a table with a primary key fails with `ConstraintViolation`
  when the key is already present, mirroring SQLite's PK constraint.
* each aiogram handler becomes a function from the incoming update and the
  store to `Except DBError (DB × response)`; the dispatcher `handleMessage`
  mirrors the registration order of the `@dp.message` filters.
* `hashlib.sha256(url.encode()).hexdigest()` is embedded as a full
  executable SHA-256 over the UTF-8 bytes of the string.
-/

namespace Bot

/-! ## SHA-256 (model of `hashlib.sha256(...).hexdigest()`) -/

/-- Truncation to a 32-bit word. -/
def w32 (n : Nat) : Nat := n % 4294967296

/-- Right rotation of a 32-bit word by `k` bits. -/
def rotr32 (k x : Nat) : Nat := w32 ((x >>> k) ||| (x <<< (32 - k)))

/-- UTF-8 encoding of a single character (model of Python `str.encode()`). -/
def utf8Bytes (c : Char) : List Nat :=
  let n := c.toNat
  if n < 128 then [n]
  else if n < 2048 then [192 ||| (n >>> 6), 128 ||| (n &&& 63)]
  else if n < 65536 then
    [224 ||| (n >>> 12), 128 ||| ((n >>> 6) &&& 63), 128 ||| (n &&& 63)]
  else
    [240 ||| (n >>> 18), 128 ||| ((n >>> 12) &&& 63),
     128 ||| ((n >>> 6) &&& 63), 128 ||| (n &&& 63)]

/-- UTF-8 bytes of a string. -/
def strUtf8 (s : String) : List Nat := (s.data.map utf8Bytes).flatten

/-- Big-endian byte decomposition (`k` bytes) of `n`. -/
def toBytesBE (k n : Nat) : List Nat :=
  (List.range k).map (fun i => (n >>> (8 * (k - 1 - i))) % 256)

/-- Big-endian word from a list of bytes. -/
def bytesToWordBE (bs : List Nat) : Nat := bs.foldl (fun acc b => acc * 256 + b) 0

/-- SHA-256 padding: append `0x80`, zero bytes to 56 mod 64, then the 64-bit
big-endian bit length. -/
def padMessage (msg : List Nat) : List Nat :=
  msg ++ [128] ++ List.replicate ((120 - ((msg.length + 1) % 64)) % 64) 0
      ++ toBytesBE 8 (8 * msg.length)

/-- Split a byte list into 64-byte blocks. -/
def toBlocks : List Nat → List (List Nat)
  | [] => []
  | b :: rest => ((b :: rest).take 64) :: toBlocks ((b :: rest).drop 64)
termination_by l => l.length
decreasing_by simp [List.length_drop]; omega

def sigmaSmall0 (x : Nat) : Nat := (rotr32 7 x) ^^^ (rotr32 18 x) ^^^ (x >>> 3)

def sigmaSmall1 (x : Nat) : Nat := (rotr32 17 x) ^^^ (rotr32 19 x) ^^^ (x >>> 10)

def sigmaBig0 (x : Nat) : Nat := (rotr32 2 x) ^^^ (rotr32 13 x) ^^^ (rotr32 22 x)

def sigmaBig1 (x : Nat) : Nat := (rotr32 6 x) ^^^ (rotr32 11 x) ^^^ (rotr32 25 x)

def chFn (x y z : Nat) : Nat := (x &&& y) ^^^ ((x ^^^ 4294967295) &&& z)

def majFn (x y z : Nat) : Nat := (x &&& y) ^^^ (x &&& z) ^^^ (y &&& z)

/-- The 64 SHA-256 round constants. -/
def sha256K : List Nat :=
  [1116352408, 1899447441, 3049323471, 3921009573,
   961987163, 1508970993, 2453635748, 2870763221,
   3624381080, 310598401, 607225278, 1426881987,
   1925078388, 2162078206, 2614888103, 3248222580,
   3835390401, 4022224774, 264347078, 604807628,
   770255983, 1249150122, 1555081692, 1996064986,
   2554220882, 2821834349, 2952996808, 3210313671,
   3336571891, 3584528711, 113926993, 338241895,
   666307205, 773529912, 1294757372, 1396182291,
   1695183700, 1986661051, 2177026350, 2456956037,
   2730485921, 2820302411, 3259730800, 3345764771,
   3516065817, 3600352804, 4094571909, 275423344,
   430227734, 506948616, 659060556, 883997877,
   958139571, 1322822218, 1537002063, 1747873779,
   1955562222, 2024104815, 2227730452, 2361852424,
   2428436474, 2756734187, 3204031479, 3329325298]

/-- State of the eight SHA-256 working words. -/
structure Hash8 where
  a : Nat
  b : Nat
  c : Nat
  d : Nat
  e : Nat
  f : Nat
  g : Nat
  h : Nat
deriving Repr, DecidableEq

/-- SHA-256 initial hash value. -/
def initH8 : Hash8 :=
  ⟨1779033703, 3144134277, 1013904242, 2773480762,
   1359893119, 2600822924, 528734635, 1541459225⟩

/-- The 64-entry message schedule of one block. -/
def schedule (block : List Nat) : List Nat :=
  let w0 := (List.range 16).map (fun i => bytesToWordBE ((block.drop (4 * i)).take 4))
  (List.range 48).foldl
    (fun w t =>
      w ++ [w32 (w.getD t 0 + sigmaSmall0 (w.getD (t + 1) 0)
             + w.getD (t + 9) 0 + sigmaSmall1 (w.getD (t + 14) 0))])
    w0

/-- One round of the SHA-256 compression function. -/
def compressStep (k w : Nat) (s : Hash8) : Hash8 :=
  let t1 := w32 (s.h + sigmaBig1 s.e + chFn s.e s.f s.g + k + w)
  let t2 := w32 (sigmaBig0 s.a + majFn s.a s.b s.c)
  ⟨w32 (t1 + t2), s.a, s.b, s.c, w32 (s.d + t1), s.e, s.f, s.g⟩

/-- Compression of one 64-byte block into the running hash. -/
def compressBlock (hs : Hash8) (block : List Nat) : Hash8 :=
  let s := (List.zip sha256K (schedule block)).foldl
    (fun st kw => compressStep kw.1 kw.2 st) hs
  ⟨w32 (hs.a + s.a), w32 (hs.b + s.b), w32 (hs.c + s.c), w32 (hs.d + s.d),
   w32 (hs.e + s.e), w32 (hs.f + s.f), w32 (hs.g + s.g), w32 (hs.h + s.h)⟩

/-- SHA-256 digest of a byte list, as eight 32-bit words. -/
def sha256Words (msg : List Nat) : List Nat :=
  let fin := (toBlocks (padMessage msg)).foldl compressBlock initH8
  [fin.a, fin.b, fin.c, fin.d, fin.e, fin.f, fin.g, fin.h]

/-- Lowercase hex character for a value below 16. -/
def hexChar (n : Nat) : Char :=
  if n < 10 then Char.ofNat (48 + n) else Char.ofNat (87 + n)

/-- Eight lowercase hex characters of a 32-bit word, most significant first. -/
def toHex8 (n : Nat) : List Char :=
  (List.range 8).map (fun i => hexChar ((n >>> (4 * (7 - i))) % 16))

/-- Model of `hashlib.sha256(s.encode()).hexdigest()`. -/
def sha256hex (s : String) : String :=
  String.mk (((sha256Words (strUtf8 s)).map toHex8).flatten)

/-! ## Identifier generator (`generate_id`, bot.py lines 76-78) -/

/-- `string.ascii_letters + string.digits`: the 62-character alphabet. -/
def idChars : List Char :=
  "abcdefghijklmnopqrstuvwxyzABCDEFGHIJKLMNOPQRSTUVWXYZ0123456789".data

/-- `generate_id(length=12)`: `''.join(secrets.choice(chars) for _ in range(length))`.
The calls to `secrets.choice` are modelled by the oracle `r`, giving the index
into the 62-character alphabet chosen at each position. -/
def generate_id (r : Nat → Fin 62) (length : Nat := 12) : String :=
  String.mk ((List.range length).map
    (fun i => idChars.get (Fin.cast (by decide) (r i))))

/-! ## Data model: the five SQLite tables (bot.py lines 25-74) -/

structure MetaDataRow where
  id : String
  user_tg_reg_date : String
  user_bot_reg_date : String
  device_meta : String
  browser : String
deriving Repr, DecidableEq

structure UserRow where
  telegram_id : Int
  username : String
  nickname : String
  meta_data_id : String
deriving Repr, DecidableEq

structure ShortLinkRow where
  short_id : String
  original_url : String
  creator_id : Int
  folder_id : Option String
  created_at : String
deriving Repr, DecidableEq

structure FolderRow where
  folder_id : String
  name : String
  creator_id : Int
deriving Repr, DecidableEq

structure DeletedLinkHashRow where
  hash_id : String
  original_url_hash : String
  deleted_at : String
  creator_id : Int
deriving Repr, DecidableEq

/-- The whole persisted store: the five tables. -/
structure DB where
  meta_data : List MetaDataRow
  user : List UserRow
  short_links : List ShortLinkRow
  folders : List FolderRow
  deleted_links_hash : List DeletedLinkHashRow
deriving Repr, DecidableEq

def emptyDB : DB := ⟨[], [], [], [], []⟩

/-- The only storage error surfaced by the embedding: a primary-key
(`ConstraintViolation`) failure on an `INSERT`. -/
inductive DBError where
  | constraintViolation
deriving Repr, DecidableEq

/-- `SELECT ... FROM short_links WHERE short_id = ?` followed by `fetchone()`. -/
def DB.selectLink (db : DB) (sid : String) : Option ShortLinkRow :=
  db.short_links.find? (fun q => q.short_id == sid)

/-- `SELECT telegram_id FROM user WHERE telegram_id = ?` followed by `fetchone()`. -/
def DB.selectUser (db : DB) (uid : Int) : Option UserRow :=
  db.user.find? (fun q => q.telegram_id == uid)

/-- `SELECT short_id, original_url FROM short_links WHERE creator_id = ?`. -/
def DB.linksByCreator (db : DB) (uid : Int) : List ShortLinkRow :=
  db.short_links.filter (fun q => q.creator_id == uid)

/-- `SELECT folder_id, name FROM folders WHERE creator_id = ?`. -/
def DB.foldersByCreator (db : DB) (uid : Int) : List FolderRow :=
  db.folders.filter (fun q => q.creator_id == uid)

/-- `INSERT INTO meta_data ...`: fails if the primary key `id` exists. -/
def insertMetaData (db : DB) (row : MetaDataRow) : Except DBError DB :=
  if db.meta_data.any (fun q => q.id == row.id) then .error .constraintViolation
  else .ok { db with meta_data := db.meta_data ++ [row] }

/-- `INSERT INTO user ...`: fails if the primary key `telegram_id` exists. -/
def insertUser (db : DB) (row : UserRow) : Except DBError DB :=
  if db.user.any (fun q => q.telegram_id == row.telegram_id) then .error .constraintViolation
  else .ok { db with user := db.user ++ [row] }

/-- `INSERT INTO short_links ...`: fails if the primary key `short_id` exists. -/
def insertShortLink (db : DB) (row : ShortLinkRow) : Except DBError DB :=
  if db.short_links.any (fun q => q.short_id == row.short_id) then .error .constraintViolation
  else .ok { db with short_links := db.short_links ++ [row] }

/-- `INSERT INTO folders ...`: fails if the primary key `folder_id` exists. -/
def insertFolder (db : DB) (row : FolderRow) : Except DBError DB :=
  if db.folders.any (fun q => q.folder_id == row.folder_id) then .error .constraintViolation
  else .ok { db with folders := db.folders ++ [row] }

/-- `INSERT INTO deleted_links_hash ...`: fails if the primary key `hash_id` exists. -/
def insertDeletedHash (db : DB) (row : DeletedLinkHashRow) : Except DBError DB :=
  if db.deleted_links_hash.any (fun q => q.hash_id == row.hash_id) then .error .constraintViolation
  else .ok { db with deleted_links_hash := db.deleted_links_hash ++ [row] }

/-- `DELETE FROM short_links WHERE short_id = ?`. -/
def deleteShortLink (db : DB) (sid : String) : DB :=
  { db with short_links := db.short_links.filter (fun q => !(q.short_id == sid)) }

/-! ## Inbound updates and outbound responses -/

/-- The parts of an aiogram `types.Message` the handlers read. -/
structure Message where
  text : String
  from_user_id : Int
  from_user_username : String
  from_user_full_name : String
deriving Repr, DecidableEq

/-- The parts of an aiogram `types.CallbackQuery` the handlers read. -/
structure Callback where
  data : String
  from_user_id : Int
deriving Repr, DecidableEq

/-- The response payloads the handlers produce (text plus buttons, abstracted
to their content). -/
inductive Response where
  | linkReady (url : String)
  | linkNotFound
  | welcome
  | invalidUrl
  | linkCreated (original shortUrl : String)
  | noLinks
  | linksList (entries : List (String × String))
  | linkDeleted
  | deleteNotFound
  | noFolders
  | foldersList (entries : List (String × String))
  | folderCreated (folder_id : String)
deriving Repr, DecidableEq

/-! ## Python string-splitting semantics -/

/-- Accumulator pass of Python `str.split()` with no separator: whitespace
runs separate tokens and produce no empty pieces. -/
def pyWhitespaceSplitAux : List Char → List Char → List (List Char)
  | [], acc => if acc.isEmpty then [] else [acc.reverse]
  | c :: rest, acc =>
    if c.isWhitespace then
      if acc.isEmpty then pyWhitespaceSplitAux rest []
      else acc.reverse :: pyWhitespaceSplitAux rest []
    else pyWhitespaceSplitAux rest (c :: acc)

/-- Python `str.split()` with no separator. -/
def pyWhitespaceSplit (s : String) : List String :=
  (pyWhitespaceSplitAux s.data []).map String.mk

/-- Accumulator pass of Python `str.split(sep)` for a one-character separator
(empty pieces are kept). -/
def pyCharSplitAux (sep : Char) : List Char → List Char → List (List Char)
  | [], acc => [acc.reverse]
  | c :: rest, acc =>
    if c = sep then acc.reverse :: pyCharSplitAux sep rest []
    else pyCharSplitAux sep rest (c :: acc)

/-- Python `str.split(sep)` for a one-character separator. -/
def pyCharSplit (sep : Char) (s : String) : List String :=
  (pyCharSplitAux sep s.data []).map String.mk

/-- Python `str.startswith(pre)`. -/
def pyStartsWith (s pre : String) : Bool :=
  pre.data.isPrefixOf s.data

/-- Python `str.strip()`: remove leading and trailing whitespace. -/
def pyStrip (s : String) : String :=
  String.mk (((s.data.dropWhile Char.isWhitespace).reverse.dropWhile
    Char.isWhitespace).reverse)

/-- `callback.data.split("_")[1]` (bot.py line 174). -/
def parseCallbackShortId (data : String) : String :=
  (pyCharSplit '_' data).getD 1 ""

/-- The delete-button token `f"del_{s_id}"` (bot.py line 168). -/
def delCallbackData (sid : String) : String := "del_" ++ sid

/-! ## Handlers (bot.py lines 86-222) -/

/-- `cmd_start` (bot.py lines 86-129): deep-link resolution when the start
command carries an argument, otherwise exists-check-then-register followed by
the welcome text. -/
def cmd_start (r : Nat → Fin 62) (now : String) (msg : Message) (db : DB) :
    Except DBError (DB × Response) :=
  let args := pyWhitespaceSplit msg.text
  if args.length > 1 then
    let short_id := args.getD 1 ""
    match db.selectLink short_id with
    | some row => .ok (db, .linkReady row.original_url)
    | none => .ok (db, .linkNotFound)
  else
    match db.selectUser msg.from_user_id with
    | some _ => .ok (db, .welcome)
    | none =>
      let m_id := generate_id r
      match insertMetaData db ⟨m_id, "Unknown", now, "Mobile/Desktop", "In-App Telegram"⟩ with
      | .error e => .error e
      | .ok db1 =>
        match insertUser db1
            ⟨msg.from_user_id, msg.from_user_username, msg.from_user_full_name, m_id⟩ with
        | .error e => .error e
        | .ok db2 => .ok (db2, .welcome)

/-- `create_link` (bot.py lines 131-153): validate with `validators.url`
(modelled by the parameter `vurl`), insert the freshly generated id, and
return the composed deep link. -/
def create_link (vurl : String → Bool) (r : Nat → Fin 62) (now botUsername : String)
    (msg : Message) (db : DB) : Except DBError (DB × Response) :=
  let url := pyStrip msg.text
  if !(vurl url) then .ok (db, .invalidUrl)
  else
    let short_id := generate_id r
    match insertShortLink db ⟨short_id, url, msg.from_user_id, none, now⟩ with
    | .error e => .error e
    | .ok db1 =>
      .ok (db1, .linkCreated url ("https://t.me/" ++ botUsername ++ "?start=" ++ short_id))

/-- `list_links` (bot.py lines 155-170). The delete button attached to each
entry carries the token `delCallbackData short_id`. -/
def list_links (msg : Message) (db : DB) : DB × Response :=
  let links := (db.linksByCreator msg.from_user_id).map
    (fun q => (q.short_id, q.original_url))
  if links.isEmpty then (db, .noLinks) else (db, .linksList links)

/-- `delete_link_callback` (bot.py lines 172-196): read the row, insert the
SHA-256 audit row, remove the link, all before the single `commit()`. -/
def delete_link_callback (now : String) (cb : Callback) (db : DB) :
    Except DBError (DB × Response) :=
  let short_id := parseCallbackShortId cb.data
  match db.selectLink short_id with
  | some row =>
    let url_hash := sha256hex row.original_url
    match insertDeletedHash db ⟨short_id, url_hash, now, row.creator_id⟩ with
    | .error e => .error e
    | .ok db1 => .ok (deleteShortLink db1 short_id, .linkDeleted)
  | none => .ok (db, .deleteNotFound)

/-- `cmd_folders` (bot.py lines 198-213). -/
def cmd_folders (msg : Message) (db : DB) : DB × Response :=
  let fs := (db.foldersByCreator msg.from_user_id).map (fun q => (q.folder_id, q.name))
  if fs.isEmpty then (db, .noFolders) else (db, .foldersList fs)

/-- `create_folder_example` (bot.py lines 215-222). -/
def create_folder_example (r : Nat → Fin 62) (cb : Callback) (db : DB) :
    Except DBError (DB × Response) :=
  let f_id := generate_id r
  match insertFolder db ⟨f_id, "Работа", cb.from_user_id⟩ with
  | .error e => .error e
  | .ok db1 => .ok (db1, .folderCreated f_id)

/-! ## Dispatch (the `@dp.message` / `@dp.callback_query` filters, in
registration order) -/

/-- `Command(...)`: the first whitespace-separated token is the command. -/
def isCommand (cmd text : String) : Bool :=
  (pyWhitespaceSplit text).headD "" == cmd

/-- `F.text.regexp(r"^https?://")`: the text starts with an http(s) scheme. -/
def urlShaped (text : String) : Bool :=
  pyStartsWith text "http://" || pyStartsWith text "https://"

/-- Message dispatch: `CommandStart()`, then the URL regexp filter, then
`Command("my_links")`, then `Command("folders")`; unmatched messages get no
handler and no response. -/
def handleMessage (vurl : String → Bool) (r : Nat → Fin 62) (now botUsername : String)
    (msg : Message) (db : DB) : Except DBError (DB × Option Response) :=
  if isCommand "/start" msg.text then
    (cmd_start r now msg db).map (fun p => (p.1, some p.2))
  else if urlShaped msg.text then
    (create_link vurl r now botUsername msg db).map (fun p => (p.1, some p.2))
  else if isCommand "/my_links" msg.text then
    .ok ((list_links msg db).1, some (list_links msg db).2)
  else if isCommand "/folders" msg.text then
    .ok ((cmd_folders msg db).1, some (cmd_folders msg db).2)
  else .ok (db, none)

/-- Callback dispatch: `F.data.startswith("del_")`, then
`F.data == "create_folder_work"`. -/
def handleCallback (r : Nat → Fin 62) (now : String) (cb : Callback) (db : DB) :
    Except DBError (DB × Option Response) :=
  if pyStartsWith cb.data "del_" then
    (delete_link_callback now cb db).map (fun p => (p.1, some p.2))
  else if cb.data == "create_folder_work" then
    (create_folder_example r cb db).map (fun p => (p.1, some p.2))
  else .ok (db, none)

/-! ## Traces of inbound updates -/

/-- One inbound update together with its environment (the validator, the
randomness oracle, the clock, the bot username). -/
inductive Action where
  | msg (vurl : String → Bool) (r : Nat → Fin 62) (now botUsername : String) (m : Message)
  | cb (r : Nat → Fin 62) (now : String) (c : Callback)

/-- Effect of one update on the store; a failed transaction rolls back and
leaves the store as it was (spec section 7). -/
def runAction (a : Action) (db : DB) : DB :=
  match a with
  | .msg vurl r now bu m =>
    match handleMessage vurl r now bu m db with
    | .ok p => p.1
    | .error _ => db
  | .cb r now c =>
    match handleCallback r now c db with
    | .ok p => p.1
    | .error _ => db

def runActions (as : List Action) (db : DB) : DB :=
  as.foldl (fun d a => runAction a d) db

/-- Whether an update is a delete callback targeting the short id `sid`. -/
def Action.deletesId (a : Action) (sid : String) : Bool :=
  match a with
  | .msg _ _ _ _ _ => false
  | .cb _ _ c => pyStartsWith c.data "del_" && (parseCallbackShortId c.data == sid)

/-! ## Fine-grained model of the delete transaction (bot.py lines 176-192)

SQLite (as driven by Python sqlite3 / aiosqlite with its default isolation
level) opens an implicit transaction at the first write; the INSERT into
`deleted_links_hash` and the DELETE from `short_links` stay buffered in that
transaction and reach the committed store only at the single `commit()`.  The
machine below exposes every intermediate point of the handler so that the
committed store visible at each step can be examined. -/

/-- State of one in-flight delete transaction: the committed store, the two
buffered (uncommitted) writes, a program counter over the handler's
statements (0 = before the SELECT, 1 = row read, 2 = INSERT executed,
3 = DELETE executed, 4 = finished), and the response sent. -/
structure DelTxn where
  committed : DB
  pendingHash : Option DeletedLinkHashRow
  pendingDel : Option String
  pc : Nat
  resp : Option Response
deriving Repr, DecidableEq

def delInit (db : DB) : DelTxn := ⟨db, none, none, 0, none⟩

/-- The audit row the handler stages for a link row it read. -/
def hashRowFor (now sid : String) (row : ShortLinkRow) : DeletedLinkHashRow :=
  ⟨sid, sha256hex row.original_url, now, row.creator_id⟩

/-- One statement of `delete_link_callback`.  The INSERT checks its primary
key when executed and an uncaught failure rolls the transaction back; the
`commit()` publishes both buffered writes at once. -/
def delStep (now sid : String) (t : DelTxn) : DelTxn :=
  match t.pc with
  | 0 =>
    match t.committed.selectLink sid with
    | some _ => { t with pc := 1 }
    | none => { t with pc := 4, resp := some .deleteNotFound }
  | 1 =>
    match t.committed.selectLink sid with
    | some row =>
      if t.committed.deleted_links_hash.any (fun q => q.hash_id == sid) then
        ⟨t.committed, none, none, 4, none⟩
      else
        { t with pendingHash := some (hashRowFor now sid row), pc := 2 }
    | none => { t with pc := 4 }
  | 2 => { t with pendingDel := some sid, pc := 3 }
  | 3 =>
    let db1 := match t.pendingHash with
      | some hrow => { t.committed with
          deleted_links_hash := t.committed.deleted_links_hash ++ [hrow] }
      | none => t.committed
    let db2 := match t.pendingDel with
      | some s => deleteShortLink db1 s
      | none => db1
    ⟨db2, none, none, 4, some .linkDeleted⟩
  | _ => t

/-- The store after a committed delete of `sid`: the audit row appended and
every `short_links` row keyed `sid` removed. -/
def delApplied (now sid : String) (db : DB) (row : ShortLinkRow) : DB :=
  deleteShortLink
    { db with deleted_links_hash := db.deleted_links_hash ++ [hashRowFor now sid row] }
    sid

/-! ## Fine-grained model of the registration race (bot.py lines 106-122)

Two concurrent `/start` updates for the same platform id each run the
exists-check followed by the two INSERTs.  Statements are serialized by the
storage engine; a primary-key failure of an INSERT rolls the failing
transaction back (removing its own uncommitted meta row). -/

inductive RegPc where
  | ready      -- about to run the SELECT on `user`
  | checked    -- SELECT found nothing; about to INSERT into `meta_data`
  | metaDone   -- meta row inserted; about to INSERT into `user`
  | finished   -- welcome sent (registration done or skipped)
  | failedPK   -- an INSERT hit the primary key; transaction rolled back
deriving Repr, DecidableEq

/-- One in-flight `/start` registration: the caller's fields, the id the
generator returned for its metadata row, and its program counter. -/
structure RegThread where
  uid : Int
  username : String
  nickname : String
  m_id : String
  now : String
  pc : RegPc
deriving Repr, DecidableEq

/-- One statement of the registration path of `cmd_start`. -/
def regStep (db : DB) (t : RegThread) : DB × RegThread :=
  match t.pc with
  | .ready =>
    match db.selectUser t.uid with
    | some _ => (db, { t with pc := .finished })
    | none => (db, { t with pc := .checked })
  | .checked =>
    match insertMetaData db ⟨t.m_id, "Unknown", t.now, "Mobile/Desktop", "In-App Telegram"⟩ with
    | .ok db1 => (db1, { t with pc := .metaDone })
    | .error _ => (db, { t with pc := .failedPK })
  | .metaDone =>
    match insertUser db ⟨t.uid, t.username, t.nickname, t.m_id⟩ with
    | .ok db1 => (db1, { t with pc := .finished })
    | .error _ =>
      ({ db with meta_data := db.meta_data.filter (fun q => !(q.id == t.m_id)) },
       { t with pc := .failedPK })
  | .finished => (db, t)
  | .failedPK => (db, t)

/-- Two racing registrations over the shared store. -/
structure RegSys where
  db : DB
  t1 : RegThread
  t2 : RegThread
deriving Repr, DecidableEq

/-- Run one statement of the thread selected by the scheduler. -/
def regSysStep (s : RegSys) (which : Bool) : RegSys :=
  if which then
    let p := regStep s.db s.t1
    ⟨p.1, p.2, s.t2⟩
  else
    let p := regStep s.db s.t2
    ⟨p.1, s.t1, p.2⟩

/-- Run an interleaving of the two threads. -/
def runSchedule (s : RegSys) (sched : List Bool) : RegSys :=
  sched.foldl regSysStep s

/-- Number of `user` rows carrying a given platform id. -/
def countUsers (db : DB) (uid : Int) : Nat :=
  db.user.countP (fun q => q.telegram_id == uid)

end Bot

namespace Bot

theorem find?_append_left {α} {p : α → Bool} {l₁ : List α} (l₂ : List α) {x : α}
    (h : l₁.find? p = some x) : (l₁ ++ l₂).find? p = some x := by
  simp [List.find?_append, h]

theorem find?_filter_of_imp {α} {p q : α → Bool} {l : List α} {x : α}
    (h : l.find? p = some x) (himp : ∀ y, p y = true → q y = true) :
    (l.filter q).find? p = some x := by
  induction l with
  | nil => simp at h
  | cons a t ih =>
    cases hpa : p a with
    | true =>
      rw [List.find?_cons, hpa] at h
      have hx : a = x := by simpa using h
      subst hx
      rw [List.filter_cons, himp a hpa]
      simp [List.find?_cons, hpa]
    | false =>
      rw [List.find?_cons, hpa] at h
      rw [List.filter_cons]
      cases hqa : q a with
      | true => simpa [List.find?_cons, hpa] using ih h
      | false => simpa using ih h

theorem find?_none_of_any_false {α} {p : α → Bool} {l : List α} (h : l.any p = false) :
    l.find? p = none := by
  rw [List.find?_eq_none]
  rw [List.any_eq_false] at h
  exact h

theorem find?_filter_not_self {α} (p : α → Bool) (l : List α) :
    (l.filter (fun x => !(p x))).find? p = none := by
  rw [List.find?_eq_none]
  intro x hx
  have hm := List.mem_filter.mp hx
  simp at hm
  simp [hm.2]

theorem generate_id_length (r : Nat → Fin 62) (n : Nat) : (generate_id r n).length = n := by
  simp [generate_id, String.length]

theorem generate_id_chars (r : Nat → Fin 62) (n : Nat) :
    ∀ c ∈ (generate_id r n).data, c ∈ idChars := by
  intro c hc
  simp [generate_id] at hc
  obtain ⟨i, -, rfl⟩ := hc
  exact List.get_mem _ _ _

theorem idChars_not_ws : ∀ c ∈ idChars, ¬ c.isWhitespace := by decide

theorem idChars_ne_underscore : ∀ c ∈ idChars, ¬ c = '_' := by decide

theorem pyWsAux_no_ws (l : List Char) (hl : ∀ c ∈ l, ¬ c.isWhitespace) :
    ∀ acc : List Char, acc ≠ [] ∨ l ≠ [] →
      pyWhitespaceSplitAux l acc = [acc.reverse ++ l] := by
  induction l with
  | nil =>
    intro acc hne
    rcases hne with h | h
    · simp [pyWhitespaceSplitAux, h]
    · exact absurd rfl h
  | cons c t ih =>
    intro acc _
    have hc : ¬ c.isWhitespace := hl c (by simp)
    have ht : ∀ x ∈ t, ¬ x.isWhitespace := fun x hx => hl x (by simp [hx])
    simp only [pyWhitespaceSplitAux, hc, if_false, Bool.false_eq_true]
    rw [ih ht (c :: acc) (Or.inl (by simp))]
    simp

theorem pyCharAux_no_sep (sep : Char) (l : List Char) (hl : ∀ c ∈ l, ¬ c = sep) :
    ∀ acc : List Char, pyCharSplitAux sep l acc = [acc.reverse ++ l] := by
  induction l with
  | nil => intro acc; simp [pyCharSplitAux]
  | cons c t ih =>
    intro acc
    have hc : ¬ c = sep := hl c (by simp)
    have ht : ∀ x ∈ t, ¬ x = sep := fun x hx => hl x (by simp [hx])
    rw [pyCharSplitAux, if_neg hc, ih ht (c :: acc)]
    simp

theorem parse_del_roundtrip {sid : String} (h : ∀ c ∈ sid.data, ¬ c = '_') :
    parseCallbackShortId (delCallbackData sid) = sid := by
  unfold parseCallbackShortId delCallbackData pyCharSplit
  have hdata : ("del_" ++ sid).data = 'd' :: 'e' :: 'l' :: '_' :: sid.data := by
    rw [String.data_append]; rfl
  rw [hdata]
  rw [pyCharSplitAux, if_neg (by decide)]
  rw [pyCharSplitAux, if_neg (by decide)]
  rw [pyCharSplitAux, if_neg (by decide)]
  rw [pyCharSplitAux, if_pos (by decide)]
  rw [pyCharAux_no_sep _ _ h []]
  simp

end Bot

namespace Bot

/-- C5: every string produced by the identifier generator at its default
length parameter has exactly 12 characters, each drawn from the 62-character
alphabet of ASCII letters and digits. -/
theorem claim_C5 (r : Nat → Fin 62) :
    (generate_id r).length = 12 ∧
    (∀ c ∈ (generate_id r).data, c ∈ idChars) ∧
    idChars.length = 62 ∧
    (∀ c ∈ idChars, c.isAlpha ∨ c.isDigit) :=
  ⟨generate_id_length r 12, generate_id_chars r 12, by decide, by decide⟩

/-- C9: encoding a generated id into a delete callback token as the string
del_ followed by the id, and parsing the token by splitting on the underscore
and taking the second component, yields the original id — the round trip holds
because generated ids never contain an underscore. -/
theorem claim_C9 (r : Nat → Fin 62) :
    parseCallbackShortId (delCallbackData (generate_id r)) = generate_id r := by
  apply parse_del_roundtrip
  intro c hc
  exact idChars_ne_underscore c (generate_id_chars r 12 c hc)

/-- C7: neither Delete nor Resolve performs an authorization check against the
caller: the delete callback's outcome and the deep-link resolution outcome are
identical for any two caller ids, whether or not they equal the link's
creator. -/
theorem claim_C7 (now d : String) (u1 u2 : Int) (db : DB)
    (r : Nat → Fin 62) (text un1 un2 fn1 fn2 : String)
    (hargs : (pyWhitespaceSplit text).length > 1) :
    delete_link_callback now ⟨d, u1⟩ db = delete_link_callback now ⟨d, u2⟩ db ∧
    cmd_start r now ⟨text, u1, un1, fn1⟩ db = cmd_start r now ⟨text, u2, un2, fn2⟩ db := by
  constructor
  · rfl
  · unfold cmd_start
    simp only [if_pos hargs]

/-- C10: a start action that carries an argument returns from the deep-link
branch (whether the id resolves or not) before the registration step, leaving
the whole store — in particular the user and metadata tables — unchanged. -/
theorem claim_C10 (r : Nat → Fin 62) (now : String)
    (msg : Message) (db : DB) (hargs : (pyWhitespaceSplit msg.text).length > 1) :
    ∃ resp, cmd_start r now msg db = .ok (db, resp) := by
  unfold cmd_start
  simp only [if_pos hargs]
  cases h : db.selectLink ((pyWhitespaceSplit msg.text).getD 1 "") <;> simp [h]

end Bot

namespace Bot

theorem delete_effects (now : String) (cb : Callback) (db : DB) (row : ShortLinkRow)
    (hfound : db.selectLink (parseCallbackShortId cb.data) = some row)
    (hnohash : db.deleted_links_hash.any
      (fun q => q.hash_id == parseCallbackShortId cb.data) = false) :
    ∃ db1,
      delete_link_callback now cb db = .ok (db1, .linkDeleted) ∧
      db1.selectLink (parseCallbackShortId cb.data) = none ∧
      (∀ uid, ∀ q ∈ db1.linksByCreator uid, ¬ q.short_id = parseCallbackShortId cb.data) ∧
      db1.deleted_links_hash
        = db.deleted_links_hash ++ [⟨parseCallbackShortId cb.data,
            sha256hex row.original_url, now, row.creator_id⟩] ∧
      db1.deleted_links_hash.countP
        (fun q => q.hash_id == parseCallbackShortId cb.data) = 1 := by
  simp only [delete_link_callback]
  rw [hfound]
  simp only [insertDeletedHash, hnohash, Bool.false_eq_true, if_false]
  refine ⟨_, rfl, ?_, ?_, ?_, ?_⟩
  · exact find?_filter_not_self _ _
  · intro uid q hq
    have h1 := (List.mem_filter.mp hq).1
    have h2 := List.mem_filter.mp h1
    simp at h2
    exact h2.2
  · rfl
  · simp only [deleteShortLink]
    rw [List.countP_append]
    rw [List.countP_eq_zero.mpr (List.any_eq_false.mp hnohash)]
    simp

theorem delete_idempotent (now now2 : String) (cb : Callback) (db : DB) (row : ShortLinkRow)
    (hfound : db.selectLink (parseCallbackShortId cb.data) = some row)
    (hnohash : db.deleted_links_hash.any
      (fun q => q.hash_id == parseCallbackShortId cb.data) = false) :
    ∃ db1,
      delete_link_callback now cb db = .ok (db1, .linkDeleted) ∧
      delete_link_callback now2 cb db1 = .ok (db1, .deleteNotFound) ∧
      db1.deleted_links_hash.countP
        (fun q => q.hash_id == parseCallbackShortId cb.data) = 1 := by
  obtain ⟨db1, hdel, hnone, -, -, hcount⟩ := delete_effects now cb db row hfound hnohash
  refine ⟨db1, hdel, ?_, hcount⟩
  simp only [delete_link_callback]
  rw [hnone]

end Bot

namespace Bot

theorem delStep_pc4 (now sid : String) (c : DB) (ph : Option DeletedLinkHashRow)
    (pd : Option String) (rs : Option Response) :
    delStep now sid ⟨c, ph, pd, 4, rs⟩ = ⟨c, ph, pd, 4, rs⟩ := rfl

theorem delTxn_machine (now sid : String) (db : DB) (row : ShortLinkRow)
    (hfound : db.selectLink sid = some row)
    (hnohash : db.deleted_links_hash.any (fun q => q.hash_id == sid) = false) :
    (∀ k, ((delStep now sid)^[k] (delInit db)).committed = db ∨
      ((delStep now sid)^[k] (delInit db)).committed = delApplied now sid db row) ∧
    (delStep now sid)^[4] (delInit db)
      = ⟨delApplied now sid db row, none, none, 4, some .linkDeleted⟩ := by
  have h1 : delStep now sid (delInit db) = ⟨db, none, none, 1, none⟩ := by
    simp [delStep, delInit, hfound]
  have h2 : delStep now sid ⟨db, none, none, 1, none⟩
      = ⟨db, some (hashRowFor now sid row), none, 2, none⟩ := by
    simp [delStep, hfound, hnohash]
  have h3 : delStep now sid ⟨db, some (hashRowFor now sid row), none, 2, none⟩
      = ⟨db, some (hashRowFor now sid row), some sid, 3, none⟩ := by
    simp [delStep]
  have h4 : delStep now sid ⟨db, some (hashRowFor now sid row), some sid, 3, none⟩
      = ⟨delApplied now sid db row, none, none, 4, some .linkDeleted⟩ := by
    simp [delStep, delApplied]
  have e1 : (delStep now sid)^[1] (delInit db) = ⟨db, none, none, 1, none⟩ := by
    show delStep now sid (delInit db) = _
    rw [h1]
  have e2 : (delStep now sid)^[2] (delInit db)
      = ⟨db, some (hashRowFor now sid row), none, 2, none⟩ := by
    show delStep now sid (delStep now sid (delInit db)) = _
    rw [h1, h2]
  have e3 : (delStep now sid)^[3] (delInit db)
      = ⟨db, some (hashRowFor now sid row), some sid, 3, none⟩ := by
    show delStep now sid (delStep now sid (delStep now sid (delInit db))) = _
    rw [h1, h2, h3]
  have e4 : (delStep now sid)^[4] (delInit db)
      = ⟨delApplied now sid db row, none, none, 4, some .linkDeleted⟩ := by
    show delStep now sid (delStep now sid (delStep now sid (delStep now sid (delInit db)))) = _
    rw [h1, h2, h3, h4]
  refine ⟨?_, e4⟩
  intro k
  rcases Nat.lt_or_ge k 4 with hk | hk
  · left
    interval_cases k
    · rfl
    · rw [e1]
    · rw [e2]
    · rw [e3]
  · right
    obtain ⟨j, rfl⟩ : ∃ j, k = j + 4 := ⟨k - 4, by omega⟩
    have hfix : ∀ j', (delStep now sid)^[j']
        (⟨delApplied now sid db row, none, none, 4, some .linkDeleted⟩ : DelTxn)
        = ⟨delApplied now sid db row, none, none, 4, some .linkDeleted⟩ := by
      intro j'
      induction j' with
      | zero => rfl
      | succ n ih => rw [Function.iterate_succ_apply, delStep_pc4, ih]
    rw [Function.iterate_add_apply, e4, hfix j]

end Bot

namespace Bot

theorem delete_handler_applied (now : String) (cb : Callback) (db : DB) (row : ShortLinkRow)
    (hfound : db.selectLink (parseCallbackShortId cb.data) = some row)
    (hnohash : db.deleted_links_hash.any
      (fun q => q.hash_id == parseCallbackShortId cb.data) = false) :
    delete_link_callback now cb db
      = .ok (delApplied now (parseCallbackShortId cb.data) db row, .linkDeleted) := by
  simp only [delete_link_callback]
  rw [hfound]
  simp only [insertDeletedHash, hnohash, Bool.false_eq_true, if_false]
  rfl

theorem countUsers_regStep (db : DB) (t : RegThread) (uid : Int)
    (h : countUsers db uid ≤ 1) : countUsers (regStep db t).1 uid ≤ 1 := by
  unfold regStep
  cases hpc : t.pc with
  | ready =>
    cases hsel : db.selectUser t.uid <;> simpa using h
  | checked =>
    cases hins : insertMetaData db
        ⟨t.m_id, "Unknown", t.now, "Mobile/Desktop", "In-App Telegram"⟩ with
    | error e => simpa using h
    | ok db1 =>
      have : db1.user = db.user := by
        unfold insertMetaData at hins
        split at hins
        · exact absurd hins (by simp)
        · cases hins; rfl
      simpa [countUsers, this] using h
  | metaDone =>
    cases hins : insertUser db ⟨t.uid, t.username, t.nickname, t.m_id⟩ with
    | error e => simpa [countUsers] using h
    | ok db1 =>
      unfold insertUser at hins
      split at hins
      · exact absurd hins (by simp)
      · rename_i hany
        cases hins
        have hany' : db.user.any (fun q => q.telegram_id == t.uid) = false := by
          simpa using hany
        simp only [countUsers, List.countP_append] at h ⊢
        by_cases huid : t.uid = uid
        · have hzero : List.countP (fun q => q.telegram_id == uid) db.user = 0 := by
            rw [List.countP_eq_zero]
            intro q hq
            have hq2 := List.any_eq_false.mp hany' q hq
            rw [huid] at hq2
            exact hq2
          have hone : List.countP (fun q => q.telegram_id == uid)
              [(⟨t.uid, t.username, t.nickname, t.m_id⟩ : UserRow)] ≤ 1 :=
            le_trans (List.countP_le_length _) (by simp)
          omega
        · have hz1 : List.countP (fun q => q.telegram_id == uid)
              [(⟨t.uid, t.username, t.nickname, t.m_id⟩ : UserRow)] = 0 := by
            simp [List.countP_cons, huid]
          omega
  | finished => simpa using h
  | failedPK => simpa using h

theorem countUsers_runSchedule (s : RegSys) (sched : List Bool) (uid : Int)
    (h : countUsers s.db uid ≤ 1) : countUsers (runSchedule s sched).db uid ≤ 1 := by
  induction sched generalizing s with
  | nil => exact h
  | cons b rest ih =>
    show countUsers (runSchedule (regSysStep s b) rest).db uid ≤ 1
    apply ih
    unfold regSysStep
    cases b <;> simp <;> exact countUsers_regStep _ _ _ h

end Bot

namespace Bot

theorem pyWsAux_head_cons (l : List Char) :
    ∀ acc : List Char, acc ≠ [] →
      ∃ t, pyWhitespaceSplitAux l acc
        = (acc.reverse ++ l.takeWhile (fun c => !c.isWhitespace)) :: t := by
  induction l with
  | nil =>
    intro acc hacc
    refine ⟨[], ?_⟩
    simp [pyWhitespaceSplitAux, hacc]
  | cons c t ih =>
    intro acc hacc
    by_cases hc : c.isWhitespace
    · refine ⟨pyWhitespaceSplitAux t [], ?_⟩
      simp [pyWhitespaceSplitAux, hc, hacc, List.takeWhile_cons]
    · obtain ⟨tt, htt⟩ := ih (c :: acc) (by simp)
      refine ⟨tt, ?_⟩
      simp only [pyWhitespaceSplitAux, hc, if_false, Bool.false_eq_true]
      rw [htt]
      simp [List.takeWhile_cons, hc]

theorem urlShaped_first_char {text : String} (h : urlShaped text = true) :
    ∃ rest, text.data = 'h' :: rest := by
  unfold urlShaped pyStartsWith at h
  rcases (Bool.or_eq_true _ _).mp h with h1 | h1
  · obtain ⟨t, ht⟩ := List.isPrefixOf_iff_prefix.mp h1
    exact ⟨"ttp://".data ++ t, by rw [← ht]; rfl⟩
  · obtain ⟨t, ht⟩ := List.isPrefixOf_iff_prefix.mp h1
    exact ⟨"ttps://".data ++ t, by rw [← ht]; rfl⟩

theorem urlShaped_not_start {text : String} (h : urlShaped text = true) :
    isCommand "/start" text = false := by
  obtain ⟨rest, hrest⟩ := urlShaped_first_char h
  unfold isCommand pyWhitespaceSplit
  rw [hrest]
  have hstep : pyWhitespaceSplitAux ('h' :: rest) [] = pyWhitespaceSplitAux rest ['h'] := by
    simp [pyWhitespaceSplitAux]
  rw [hstep]
  obtain ⟨t, ht⟩ := pyWsAux_head_cons rest ['h'] (by simp)
  rw [ht]
  simp only [List.map_cons, List.headD_cons]
  have hne : String.mk (['h'].reverse ++ rest.takeWhile (fun c => !c.isWhitespace))
      ≠ "/start" := by
    intro he
    have hd := congrArg String.data he
    simp at hd
  exact beq_eq_false_iff_ne.mpr hne

end Bot

namespace Bot

theorem selectLink_congr {db1 db2 : DB} (h : db1.short_links = db2.short_links)
    (sid : String) : db1.selectLink sid = db2.selectLink sid := by
  unfold DB.selectLink; rw [h]

theorem insertMetaData_short_links {db : DB} {row : MetaDataRow} {db1 : DB}
    (h : insertMetaData db row = .ok db1) : db1.short_links = db.short_links := by
  unfold insertMetaData at h
  split at h
  · exact absurd h (by simp)
  · cases h; rfl

theorem insertUser_short_links {db : DB} {row : UserRow} {db1 : DB}
    (h : insertUser db row = .ok db1) : db1.short_links = db.short_links := by
  unfold insertUser at h
  split at h
  · exact absurd h (by simp)
  · cases h; rfl

theorem insertFolder_short_links {db : DB} {row : FolderRow} {db1 : DB}
    (h : insertFolder db row = .ok db1) : db1.short_links = db.short_links := by
  unfold insertFolder at h
  split at h
  · exact absurd h (by simp)
  · cases h; rfl

theorem insertDeletedHash_short_links {db : DB} {row : DeletedLinkHashRow} {db1 : DB}
    (h : insertDeletedHash db row = .ok db1) : db1.short_links = db.short_links := by
  unfold insertDeletedHash at h
  split at h
  · exact absurd h (by simp)
  · cases h; rfl

theorem insertShortLink_ok {db : DB} {row : ShortLinkRow} {db1 : DB}
    (h : insertShortLink db row = .ok db1) :
    db1.short_links = db.short_links ++ [row] := by
  unfold insertShortLink at h
  split at h
  · exact absurd h (by simp)
  · cases h; rfl

theorem cmd_start_short_links {r : Nat → Fin 62} {now : String} {msg : Message} {db : DB}
    {p : DB × Response} (h : cmd_start r now msg db = .ok p) :
    p.1.short_links = db.short_links := by
  simp only [cmd_start] at h
  split at h
  · split at h <;> (cases h; rfl)
  · split at h
    · cases h; rfl
    · split at h
      · exact absurd h (by simp)
      · rename_i db1 hmeta
        split at h
        · exact absurd h (by simp)
        · rename_i db2 huser
          cases h
          rw [insertUser_short_links huser, insertMetaData_short_links hmeta]

theorem list_links_db (msg : Message) (db : DB) : (list_links msg db).1 = db := by
  simp only [list_links]
  split <;> rfl

theorem cmd_folders_db (msg : Message) (db : DB) : (cmd_folders msg db).1 = db := by
  simp only [cmd_folders]
  split <;> rfl

theorem create_link_short_links {vurl : String → Bool} {r : Nat → Fin 62}
    {now bu : String} {msg : Message} {db : DB} {p : DB × Response}
    (h : create_link vurl r now bu msg db = .ok p) :
    p.1.short_links = db.short_links ∨
    p.1.short_links = db.short_links
      ++ [⟨generate_id r, pyStrip msg.text, msg.from_user_id, none, now⟩] := by
  simp only [create_link] at h
  split at h
  · cases h; exact Or.inl rfl
  · split at h
    · exact absurd h (by simp)
    · rename_i db1 hins
      cases h
      exact Or.inr (insertShortLink_ok hins)

theorem create_folder_short_links {r : Nat → Fin 62} {cb : Callback} {db : DB}
    {p : DB × Response} (h : create_folder_example r cb db = .ok p) :
    p.1.short_links = db.short_links := by
  simp only [create_folder_example] at h
  split at h
  · exact absurd h (by simp)
  · rename_i db1 hins
    cases h
    exact insertFolder_short_links hins

theorem delete_preserves_other {now : String} {cb : Callback} {db : DB}
    {p : DB × Response} {sid : String} {row : ShortLinkRow}
    (h : delete_link_callback now cb db = .ok p)
    (hne : ¬ parseCallbackShortId cb.data = sid)
    (hrow : db.selectLink sid = some row) :
    p.1.selectLink sid = some row := by
  simp only [delete_link_callback] at h
  split at h
  · rename_i row2 hrow2
    split at h
    · exact absurd h (by simp)
    · rename_i db1 hins
      cases h
      show (deleteShortLink db1 (parseCallbackShortId cb.data)).selectLink sid = some row
      unfold deleteShortLink DB.selectLink
      apply find?_filter_of_imp
      · rw [insertDeletedHash_short_links hins]
        exact hrow
      · intro y hy
        have hy' : y.short_id = sid := by simpa using hy
        simp [hy']
        intro hcontra
        exact hne hcontra.symm
  · cases h
    exact hrow

end Bot

namespace Bot

theorem selectLink_runAction {a : Action} {db : DB} {sid : String} {row : ShortLinkRow}
    (h : db.selectLink sid = some row) (hnd : a.deletesId sid = false) :
    (runAction a db).selectLink sid = some row := by
  cases a with
  | msg vurl r now bu m =>
    show (match handleMessage vurl r now bu m db with
      | .ok p => p.1 | .error _ => db).selectLink sid = some row
    cases hh : handleMessage vurl r now bu m db with
    | error e => exact h
    | ok p =>
      simp only []
      unfold handleMessage at hh
      split at hh
      · cases hcs : cmd_start r now m db with
        | error e => rw [hcs] at hh; exact absurd hh (by simp [Except.map])
        | ok q =>
          rw [hcs] at hh
          simp only [Except.map, Except.ok.injEq] at hh
          rw [← hh]
          rw [selectLink_congr (cmd_start_short_links hcs)]
          exact h
      · split at hh
        · cases hcl : create_link vurl r now bu m db with
          | error e => rw [hcl] at hh; exact absurd hh (by simp [Except.map])
          | ok q =>
            rw [hcl] at hh
            simp only [Except.map, Except.ok.injEq] at hh
            rw [← hh]
            rcases create_link_short_links hcl with hsl | hsl
            · rw [selectLink_congr hsl]; exact h
            · show q.1.selectLink sid = some row
              unfold DB.selectLink
              rw [hsl]
              exact find?_append_left _ h
        · split at hh
          · simp only [Except.ok.injEq] at hh
            rw [← hh]
            rw [selectLink_congr (congrArg DB.short_links (list_links_db m db))]
            exact h
          · split at hh
            · simp only [Except.ok.injEq] at hh
              rw [← hh]
              rw [selectLink_congr (congrArg DB.short_links (cmd_folders_db m db))]
              exact h
            · simp only [Except.ok.injEq] at hh
              rw [← hh]
              exact h
  | cb r now c =>
    show (match handleCallback r now c db with
      | .ok p => p.1 | .error _ => db).selectLink sid = some row
    cases hh : handleCallback r now c db with
    | error e => exact h
    | ok p =>
      simp only []
      unfold handleCallback at hh
      split at hh
      · rename_i hdel
        have hne : ¬ parseCallbackShortId c.data = sid := by
          simp only [Action.deletesId, hdel, Bool.true_and] at hnd
          simpa using hnd
        cases hdc : delete_link_callback now c db with
        | error e => rw [hdc] at hh; exact absurd hh (by simp [Except.map])
        | ok q =>
          rw [hdc] at hh
          simp only [Except.map, Except.ok.injEq] at hh
          rw [← hh]
          exact delete_preserves_other hdc hne h
      · split at hh
        · cases hcf : create_folder_example r c db with
          | error e => rw [hcf] at hh; exact absurd hh (by simp [Except.map])
          | ok q =>
            rw [hcf] at hh
            simp only [Except.map, Except.ok.injEq] at hh
            rw [← hh]
            rw [selectLink_congr (create_folder_short_links hcf)]
            exact h
        · simp only [Except.ok.injEq] at hh
          rw [← hh]
          exact h

theorem selectLink_runActions {trace : List Action} {db : DB} {sid : String}
    {row : ShortLinkRow} (h : db.selectLink sid = some row)
    (hnd : ∀ a ∈ trace, a.deletesId sid = false) :
    (runActions trace db).selectLink sid = some row := by
  induction trace generalizing db with
  | nil => exact h
  | cons a rest ih =>
    show (runActions rest (runAction a db)).selectLink sid = some row
    exact ih (selectLink_runAction h (hnd a (by simp))) (fun x hx => hnd x (by simp [hx]))

end Bot

namespace Bot

theorem wsSplit_start_arg (sid : String) (hne : sid.data ≠ [])
    (hnw : ∀ c ∈ sid.data, ¬ c.isWhitespace) :
    pyWhitespaceSplit ("/start " ++ sid) = ["/start", sid] := by
  unfold pyWhitespaceSplit
  have hdata : ("/start " ++ sid).data
      = '/' :: 's' :: 't' :: 'a' :: 'r' :: 't' :: ' ' :: sid.data := by
    rw [String.data_append]; rfl
  rw [hdata]
  have c1 : ('/').isWhitespace = false := by decide
  have c2 : ('s').isWhitespace = false := by decide
  have c3 : ('t').isWhitespace = false := by decide
  have c4 : ('a').isWhitespace = false := by decide
  have c5 : ('r').isWhitespace = false := by decide
  have c6 : (' ').isWhitespace = true := by decide
  simp only [pyWhitespaceSplitAux, c1, c2, c3, c4, c5, c6, Bool.false_eq_true, if_false,
    if_true, List.isEmpty_cons, Bool.false_eq_true]
  rw [pyWsAux_no_ws sid.data hnw [] (Or.inr hne)]
  simp

theorem resolve_start {sid : String} {dbT : DB} {row : ShortLinkRow}
    (r2 : Nat → Fin 62) (now2 : String) (uid : Int) (un fn : String)
    (hne : sid.data ≠ []) (hnw : ∀ c ∈ sid.data, ¬ c.isWhitespace)
    (hfound : dbT.selectLink sid = some row) :
    cmd_start r2 now2 ⟨"/start " ++ sid, uid, un, fn⟩ dbT
      = .ok (dbT, .linkReady row.original_url) := by
  unfold cmd_start
  simp only [wsSplit_start_arg sid hne hnw]
  rw [if_pos (by simp)]
  simp only [List.getD_cons_succ, List.getD_cons_zero]
  rw [hfound]

end Bot

namespace Bot

theorem generate_id_ne_nil (r : Nat → Fin 62) : (generate_id r).data ≠ [] := by
  simp [generate_id]

theorem generate_id_not_ws (r : Nat → Fin 62) :
    ∀ c ∈ (generate_id r).data, ¬ c.isWhitespace :=
  fun c hc => idChars_not_ws c (generate_id_chars r 12 c hc)

/-- C1: a syntactically valid URL accepted by the submit-URL handler yields a
12-character short id; the handler appends exactly the new link row, and a
start action carrying that id as its argument resolves back to exactly the
submitted (stripped) URL, after any further trace of updates none of which
deletes that id. -/
theorem claim_C1 (vurl : String → Bool) (r : Nat → Fin 62) (now bu : String)
    (msg : Message) (db : DB)
    (hval : vurl (pyStrip msg.text) = true)
    (hfresh : db.short_links.any (fun q => q.short_id == generate_id r) = false) :
    (generate_id r).length = 12 ∧
    create_link vurl r now bu msg db
      = .ok ({ db with short_links := db.short_links
            ++ [⟨generate_id r, pyStrip msg.text, msg.from_user_id, none, now⟩] },
          .linkCreated (pyStrip msg.text)
            ("https://t.me/" ++ bu ++ "?start=" ++ generate_id r)) ∧
    ∀ trace : List Action, (∀ a ∈ trace, a.deletesId (generate_id r) = false) →
      ∀ (r2 : Nat → Fin 62) (now2 : String) (uid : Int) (un fn : String),
        cmd_start r2 now2 ⟨"/start " ++ generate_id r, uid, un, fn⟩
            (runActions trace { db with short_links := db.short_links
              ++ [⟨generate_id r, pyStrip msg.text, msg.from_user_id, none, now⟩] })
          = .ok (runActions trace { db with short_links := db.short_links
              ++ [⟨generate_id r, pyStrip msg.text, msg.from_user_id, none, now⟩] },
              .linkReady (pyStrip msg.text)) := by
  refine ⟨generate_id_length r 12, ?_, ?_⟩
  · simp only [create_link, hval, Bool.not_true, Bool.false_eq_true, if_false,
      insertShortLink, hfresh, if_true]
  · intro trace htr r2 now2 uid un fn
    have h0 : ({ db with short_links := db.short_links
        ++ [⟨generate_id r, pyStrip msg.text, msg.from_user_id, none, now⟩] } : DB).selectLink
          (generate_id r)
        = some ⟨generate_id r, pyStrip msg.text, msg.from_user_id, none, now⟩ := by
      unfold DB.selectLink
      rw [List.find?_append, find?_none_of_any_false hfresh]
      simp
    have hT := selectLink_runActions h0 htr
    exact resolve_start r2 now2 uid un fn (generate_id_ne_nil r) (generate_id_not_ws r) hT

end Bot

namespace Bot

def oracle0 : Nat → Fin 62 := fun _ => 0

/-- C2: performing Delete on a short id present in the store removes it from
Resolve and from ListByCreator, and appends exactly one DeletedLinkHash row
keyed by the same short id, whose digest field is the SHA-256 hex digest of
the link's original URL and whose creator field is the link's creator. -/
theorem claim_C2 (now : String) (cb : Callback) (db : DB) (row : ShortLinkRow)
    (hfound : db.selectLink (parseCallbackShortId cb.data) = some row)
    (hnohash : db.deleted_links_hash.any
      (fun q => q.hash_id == parseCallbackShortId cb.data) = false) :
    ∃ db1,
      delete_link_callback now cb db = .ok (db1, .linkDeleted) ∧
      db1.selectLink (parseCallbackShortId cb.data) = none ∧
      (∀ uid, ∀ q ∈ db1.linksByCreator uid, ¬ q.short_id = parseCallbackShortId cb.data) ∧
      db1.deleted_links_hash
        = db.deleted_links_hash ++ [⟨parseCallbackShortId cb.data,
            sha256hex row.original_url, now, row.creator_id⟩] ∧
      db1.deleted_links_hash.countP
        (fun q => q.hash_id == parseCallbackShortId cb.data) = 1 :=
  delete_effects now cb db row hfound hnohash

/-- C3: the two writes of Delete are atomic: at every step of the
statement-level transaction machine the committed store is either the original
store or the store with both the audit-row insert and the link removal
applied, never a state with only one of them; and the machine's committed end
state is exactly the store the handler returns. -/
theorem claim_C3 (now : String) (cb : Callback) (db : DB) (row : ShortLinkRow)
    (hfound : db.selectLink (parseCallbackShortId cb.data) = some row)
    (hnohash : db.deleted_links_hash.any
      (fun q => q.hash_id == parseCallbackShortId cb.data) = false) :
    (∀ k, ((delStep now (parseCallbackShortId cb.data))^[k] (delInit db)).committed = db ∨
      ((delStep now (parseCallbackShortId cb.data))^[k] (delInit db)).committed
        = delApplied now (parseCallbackShortId cb.data) db row) ∧
    delete_link_callback now cb db
      = .ok (delApplied now (parseCallbackShortId cb.data) db row, .linkDeleted) :=
  ⟨(delTxn_machine now (parseCallbackShortId cb.data) db row hfound hnohash).1,
   delete_handler_applied now cb db row hfound hnohash⟩

/-- C4: a second Delete performed after a short id has already been deleted
takes the NotFound branch: it returns NotFound rather than failing, leaves the
store unchanged, and the store still holds exactly one DeletedLinkHash row for
that id. -/
theorem claim_C4 (now now2 : String) (cb : Callback) (db : DB) (row : ShortLinkRow)
    (hfound : db.selectLink (parseCallbackShortId cb.data) = some row)
    (hnohash : db.deleted_links_hash.any
      (fun q => q.hash_id == parseCallbackShortId cb.data) = false) :
    ∃ db1,
      delete_link_callback now cb db = .ok (db1, .linkDeleted) ∧
      delete_link_callback now2 cb db1 = .ok (db1, .deleteNotFound) ∧
      db1.deleted_links_hash.countP
        (fun q => q.hash_id == parseCallbackShortId cb.data) = 1 :=
  delete_idempotent now now2 cb db row hfound hnohash

/-- C6 (amended): a submitted message that reaches the submit-URL handler
(its text starts with an http or https scheme) and fails URL validation
receives the ValidationError response and inserts no ShortLink row; a message
failing the URL-shape filter, such as not-a-url, is never routed to the
handler at all — no row is inserted but no response is produced either. -/
theorem claim_C6_amended (vurl : String → Bool) (r : Nat → Fin 62) (now bu : String)
    (msg : Message) (db : DB) :
    (urlShaped msg.text = true → vurl (pyStrip msg.text) = false →
      handleMessage vurl r now bu msg db = .ok (db, some .invalidUrl)) ∧
    (isCommand "/start" msg.text = false → urlShaped msg.text = false →
      isCommand "/my_links" msg.text = false → isCommand "/folders" msg.text = false →
      handleMessage vurl r now bu msg db = .ok (db, none)) := by
  constructor
  · intro hurl hval
    unfold handleMessage
    rw [urlShaped_not_start hurl]
    simp only [Bool.false_eq_true, if_false, hurl, if_true]
    unfold create_link
    simp [hval, Except.map]
  · intro h1 h2 h3 h4
    unfold handleMessage
    simp [h1, h2, h3, h4]

/-- C6 (counterexample): submitting not-a-url produces no response at all — in
particular not the ValidationError response the claim requires — because the
dispatcher's regexp filter never routes it to the submit-URL handler. -/
theorem claim_C6_counterexample :
    handleMessage (fun _ => false) oracle0 "2024-01-01T00:00:00" "linkbot"
        ⟨"not-a-url", 1, "alice", "Alice"⟩ emptyDB = .ok (emptyDB, none) ∧
    (Except.ok (emptyDB, none) : Except DBError (DB × Option Response))
      ≠ .ok (emptyDB, some .invalidUrl) := by
  constructor
  · rfl
  · simp

/-- C8 (amended): under every interleaving of two concurrent registration
flows, the user table never holds more than one row per platform id. -/
theorem claim_C8_amended (s : RegSys) (sched : List Bool) (uid : Int)
    (h : countUsers s.db uid ≤ 1) : countUsers (runSchedule s sched).db uid ≤ 1 :=
  countUsers_runSchedule s sched uid h

/-- the race: both threads pass the exists-check before either registers -/
def raceInit : RegSys :=
  ⟨emptyDB, ⟨7, "alice", "Alice", "mAAAAAAAAAAA", "2024-01-01", .ready⟩,
            ⟨7, "bob", "Bob", "mBBBBBBBBBBB", "2024-01-01", .ready⟩⟩

def raceSched : List Bool := [true, false, true, true, false, false]

/-- C8 (counterexample): the interleaving in which both threads pass the
exists-check before either inserts drives the second thread's user INSERT into
a primary-key ConstraintViolation — a visible failure the claim asserts must
not happen — even though only one user row is created. -/
theorem claim_C8_counterexample :
    (runSchedule raceInit raceSched).t2.pc = RegPc.failedPK ∧
    (runSchedule raceInit raceSched).db.user
      = [⟨7, "alice", "Alice", "mAAAAAAAAAAA"⟩] ∧
    countUsers (runSchedule raceInit raceSched).db 7 = 1 := by
  refine ⟨?_, ?_, ?_⟩ <;> rfl

end Bot

namespace Bot

def rowA : ShortLinkRow := ⟨"ab12", "https://example.com/page", 7, none, "2024-01-02"⟩

def dbA : DB := ⟨[], [], [rowA], [], []⟩

def rowB : ShortLinkRow := ⟨"cd34", "https://example.org/x", 8, none, "2024-01-03"⟩

def dbB : DB := ⟨[], [], [rowB], [], []⟩

def rowC : ShortLinkRow := ⟨"ef56", "https://example.net/y", 9, none, "2024-01-04"⟩

def dbC : DB := ⟨[], [], [rowC], [], []⟩

/-- Witness for C2 at a concrete one-link store. -/
theorem claim_C2_witness :
    (dbA.selectLink (parseCallbackShortId "del_ab12") = some rowA) ∧
    (dbA.deleted_links_hash.any
      (fun q => q.hash_id == parseCallbackShortId "del_ab12") = false) ∧
    (∃ db1,
      delete_link_callback "2024-02-02" ⟨"del_ab12", 9⟩ dbA = .ok (db1, .linkDeleted) ∧
      db1.selectLink (parseCallbackShortId "del_ab12") = none ∧
      (∀ uid, ∀ q ∈ db1.linksByCreator uid, ¬ q.short_id = parseCallbackShortId "del_ab12") ∧
      db1.deleted_links_hash
        = dbA.deleted_links_hash ++ [⟨parseCallbackShortId "del_ab12",
            sha256hex rowA.original_url, "2024-02-02", rowA.creator_id⟩] ∧
      db1.deleted_links_hash.countP
        (fun q => q.hash_id == parseCallbackShortId "del_ab12") = 1) :=
  ⟨by decide, by decide,
   claim_C2 "2024-02-02" ⟨"del_ab12", 9⟩ dbA rowA (by decide) (by decide)⟩

/-- Witness for C3 at a concrete one-link store. -/
theorem claim_C3_witness :
    (dbB.selectLink (parseCallbackShortId "del_cd34") = some rowB) ∧
    (dbB.deleted_links_hash.any
      (fun q => q.hash_id == parseCallbackShortId "del_cd34") = false) ∧
    ((∀ k, ((delStep "2024-03-03" (parseCallbackShortId "del_cd34"))^[k]
          (delInit dbB)).committed = dbB ∨
        ((delStep "2024-03-03" (parseCallbackShortId "del_cd34"))^[k]
          (delInit dbB)).committed
          = delApplied "2024-03-03" (parseCallbackShortId "del_cd34") dbB rowB) ∧
      delete_link_callback "2024-03-03" ⟨"del_cd34", 3⟩ dbB
        = .ok (delApplied "2024-03-03" (parseCallbackShortId "del_cd34") dbB rowB,
            .linkDeleted)) :=
  ⟨by decide, by decide,
   claim_C3 "2024-03-03" ⟨"del_cd34", 3⟩ dbB rowB (by decide) (by decide)⟩

/-- Witness for C4 at a concrete one-link store. -/
theorem claim_C4_witness :
    (dbC.selectLink (parseCallbackShortId "del_ef56") = some rowC) ∧
    (dbC.deleted_links_hash.any
      (fun q => q.hash_id == parseCallbackShortId "del_ef56") = false) ∧
    (∃ db1,
      delete_link_callback "2024-04-04" ⟨"del_ef56", 4⟩ dbC = .ok (db1, .linkDeleted) ∧
      delete_link_callback "2024-04-05" ⟨"del_ef56", 4⟩ db1 = .ok (db1, .deleteNotFound) ∧
      db1.deleted_links_hash.countP
        (fun q => q.hash_id == parseCallbackShortId "del_ef56") = 1) :=
  ⟨by decide, by decide,
   claim_C4 "2024-04-04" "2024-04-05" ⟨"del_ef56", 4⟩ dbC rowC (by decide) (by decide)⟩

/-- Witness for the amended C6: a routed but invalid submission. -/
theorem claim_C6_witness :
    (urlShaped "https://bad url" = true) ∧
    ((fun _ : String => false) (pyStrip "https://bad url") = false) ∧
    handleMessage (fun _ => false) oracle0 "2024-06-06" "linkbot"
        ⟨"https://bad url", 2, "bob", "Bob"⟩ emptyDB = .ok (emptyDB, some .invalidUrl) :=
  ⟨by decide, rfl,
   (claim_C6_amended (fun _ => false) oracle0 "2024-06-06" "linkbot"
      ⟨"https://bad url", 2, "bob", "Bob"⟩ emptyDB).1 (by decide) rfl⟩

/-- Witness for C7 at concrete callers 1 and 2. -/
theorem claim_C7_witness :
    ((pyWhitespaceSplit "/start xy").length > 1) ∧
    (delete_link_callback "2024-07-07" ⟨"del_gh78", 1⟩ dbA
        = delete_link_callback "2024-07-07" ⟨"del_gh78", 2⟩ dbA ∧
      cmd_start oracle0 "2024-07-07" ⟨"/start xy", 1, "u1", "n1"⟩ dbA
        = cmd_start oracle0 "2024-07-07" ⟨"/start xy", 2, "u2", "n2"⟩ dbA) :=
  ⟨by decide,
   claim_C7 "2024-07-07" "del_gh78" 1 2 dbA oracle0 "/start xy" "u1" "u2" "n1" "n2"
     (by decide)⟩

/-- Witness for the amended C8 on the racing interleaving. -/
theorem claim_C8_witness :
    (countUsers raceInit.db 7 ≤ 1) ∧
    countUsers (runSchedule raceInit raceSched).db 7 ≤ 1 :=
  ⟨by decide, claim_C8_amended raceInit raceSched 7 (by decide)⟩

/-- Witness for C10 at a concrete start action with argument. -/
theorem claim_C10_witness :
    ((pyWhitespaceSplit "/start zz99").length > 1) ∧
    (∃ resp, cmd_start oracle0 "2024-10-10" ⟨"/start zz99", 3, "carol", "Carol"⟩ dbA
      = .ok (dbA, resp)) :=
  ⟨by decide,
   claim_C10 oracle0 "2024-10-10" ⟨"/start zz99", 3, "carol", "Carol"⟩ dbA (by decide)⟩

/-- Witness for C1: submit a URL over the empty store, then resolve. -/
theorem claim_C1_witness :
    ((fun _ : String => true) (pyStrip "https://example.com/page") = true) ∧
    (emptyDB.short_links.any (fun q => q.short_id == generate_id oracle0) = false) ∧
    ((generate_id oracle0).length = 12 ∧
      create_link (fun _ => true) oracle0 "2024-01-01" "linkbot"
          ⟨"https://example.com/page", 5, "alice", "Alice"⟩ emptyDB
        = .ok ({ emptyDB with short_links := emptyDB.short_links
              ++ [⟨generate_id oracle0, pyStrip "https://example.com/page", 5, none,
                  "2024-01-01"⟩] },
            .linkCreated (pyStrip "https://example.com/page")
              ("https://t.me/" ++ "linkbot" ++ "?start=" ++ generate_id oracle0)) ∧
      ∀ trace : List Action, (∀ a ∈ trace, a.deletesId (generate_id oracle0) = false) →
        ∀ (r2 : Nat → Fin 62) (now2 : String) (uid : Int) (un fn : String),
          cmd_start r2 now2 ⟨"/start " ++ generate_id oracle0, uid, un, fn⟩
              (runActions trace { emptyDB with short_links := emptyDB.short_links
                ++ [⟨generate_id oracle0, pyStrip "https://example.com/page", 5, none,
                    "2024-01-01"⟩] })
            = .ok (runActions trace { emptyDB with short_links := emptyDB.short_links
                ++ [⟨generate_id oracle0, pyStrip "https://example.com/page", 5, none,
                    "2024-01-01"⟩] },
                .linkReady (pyStrip "https://example.com/page"))) :=
  ⟨rfl, rfl,
   claim_C1 (fun _ => true) oracle0 "2024-01-01" "linkbot"
     ⟨"https://example.com/page", 5, "alice", "Alice"⟩ emptyDB rfl rfl⟩

end Bot
